import Mathlib

/- Verification of the Weather-MCP core against its specification.

   Shallow embedding conventions: Python floats are modelled as exact
   rationals (ℚ), Python ints as unbounded integers (ℤ/ℕ), Python strings
   as Lean `String`s.  The string methods the source uses (`replace`,
   `endswith`, `in`) are re-implemented over character lists so that they
   compute inside proofs.  Library calls that are external to the
   repository (`datetime.fromisoformat`, `datetime.fromtimestamp`) are
   modelled as explicit function parameters of the embedded definitions. -/

/-- Python `int(x)` applied to a numeric value: truncation toward zero. -/
def truncToInt (q : ℚ) : ℤ :=
  if 0 ≤ q then ⌊q⌋ else ⌈q⌉

/-- Rounding half-to-even on rationals; models the rounding performed by
Python fixed-point float formatting (`f"{x:.3f}"`), with the float value
itself modelled exactly. -/
def roundHalfEven (q : ℚ) : ℤ :=
  if q - ⌊q⌋ < 1/2 then ⌊q⌋
  else if 1/2 < q - ⌊q⌋ then ⌊q⌋ + 1
  else if ⌊q⌋ % 2 = 0 then ⌊q⌋ else ⌊q⌋ + 1

/-- Decimal rendering of a natural number, left-padded with zeros to `w`
digits. -/
def padNat (w : ℕ) (n : ℕ) : String :=
  let s := toString n
  if s.length < w then String.mk (List.replicate (w - s.length) '0') ++ s else s

/-- Model of Python `f"{x:.df}"` formatting: the value scaled by `10^d` is
rounded half-to-even and rendered with exactly `d` decimal digits. -/
def formatFixed (q : ℚ) (d : ℕ) : String :=
  let scaled := roundHalfEven (q * (10 : ℚ) ^ d)
  let sign := if scaled < 0 then "-" else ""
  let m := scaled.natAbs
  if d = 0 then sign ++ toString m
  else sign ++ toString (m / 10 ^ d) ++ "." ++ padNat d (m % 10 ^ d)

/-- `utils.get_precipitation_type`: the precipitation word chosen from the
temperature; `None` is modelled as `Option.none`. -/
def get_precipitation_type (temperature : Option ℚ) : String :=
  match temperature with
  | none => "雨/雪"
  | some t => if 0 < t then "雨" else "雪"

/-- `utils.format_precipitation_intensity`, translated branch by branch from
the source (thresholds and decimal precision per data type). -/
def format_precipitation_intensity (intensity : ℚ) (data_type : String := "radar")
    (temperature : Option ℚ := none) : String :=
  let precip_type := get_precipitation_type temperature
  if data_type = "radar" then
    if intensity < 31/1000 then formatFixed intensity 3 ++ " (无" ++ precip_type ++ ")"
    else if intensity < 25/100 then formatFixed intensity 3 ++ " (小" ++ precip_type ++ ")"
    else if intensity < 35/100 then formatFixed intensity 3 ++ " (中" ++ precip_type ++ ")"
    else if intensity < 48/100 then formatFixed intensity 3 ++ " (大" ++ precip_type ++ ")"
    else formatFixed intensity 3 ++ " (暴" ++ precip_type ++ ")"
  else if data_type = "hourly" then
    if intensity < 606/10000 then formatFixed intensity 4 ++ "mm/h (无" ++ precip_type ++ ")"
    else if intensity < 8989/10000 then formatFixed intensity 4 ++ "mm/h (小" ++ precip_type ++ ")"
    else if intensity < 28700/10000 then formatFixed intensity 4 ++ "mm/h (中" ++ precip_type ++ ")"
    else if intensity < 128638/10000 then formatFixed intensity 4 ++ "mm/h (大" ++ precip_type ++ ")"
    else formatFixed intensity 4 ++ "mm/h (暴" ++ precip_type ++ ")"
  else if data_type = "hourly_radar" then
    if intensity < 31/1000 then formatFixed intensity 3 ++ " (无" ++ precip_type ++ ")"
    else if intensity < 25/100 then formatFixed intensity 3 ++ " (小" ++ precip_type ++ ")"
    else if intensity < 35/100 then formatFixed intensity 3 ++ " (中" ++ precip_type ++ ")"
    else if intensity < 48/100 then formatFixed intensity 3 ++ " (大" ++ precip_type ++ ")"
    else formatFixed intensity 3 ++ " (暴" ++ precip_type ++ ")"
  else if data_type = "minutely" then
    if intensity < 31/1000 then formatFixed intensity 3 ++ " (无" ++ precip_type ++ ")"
    else if intensity < 25/100 then formatFixed intensity 3 ++ " (小" ++ precip_type ++ ")"
    else if intensity < 35/100 then formatFixed intensity 3 ++ " (中" ++ precip_type ++ ")"
    else if intensity < 48/100 then formatFixed intensity 3 ++ " (大" ++ precip_type ++ ")"
    else formatFixed intensity 3 ++ " (暴" ++ precip_type ++ ")"
  else if data_type = "minutely_mm" then
    if intensity < 8/100 then formatFixed intensity 2 ++ "mm/h (无" ++ precip_type ++ ")"
    else if intensity < 344/100 then formatFixed intensity 2 ++ "mm/h (小" ++ precip_type ++ ")"
    else if intensity < 1133/100 then formatFixed intensity 2 ++ "mm/h (中" ++ precip_type ++ ")"
    else if intensity < 5130/100 then formatFixed intensity 2 ++ "mm/h (大" ++ precip_type ++ ")"
    else formatFixed intensity 2 ++ "mm/h (暴" ++ precip_type ++ ")"
  else if data_type = "daily" then
    if intensity < 606/10000 then formatFixed intensity 4 ++ "mm/h (无" ++ precip_type ++ ")"
    else if intensity < 8989/10000 then formatFixed intensity 4 ++ "mm/h (小" ++ precip_type ++ ")"
    else if intensity < 28700/10000 then formatFixed intensity 4 ++ "mm/h (中" ++ precip_type ++ ")"
    else if intensity < 128638/10000 then formatFixed intensity 4 ++ "mm/h (大" ++ precip_type ++ ")"
    else formatFixed intensity 4 ++ "mm/h (暴" ++ precip_type ++ ")"
  else if data_type = "daily_radar" then
    if intensity < 31/1000 then formatFixed intensity 3 ++ " (无" ++ precip_type ++ ")"
    else if intensity < 25/100 then formatFixed intensity 3 ++ " (小" ++ precip_type ++ ")"
    else if intensity < 35/100 then formatFixed intensity 3 ++ " (中" ++ precip_type ++ ")"
    else if intensity < 48/100 then formatFixed intensity 3 ++ " (大" ++ precip_type ++ ")"
    else formatFixed intensity 3 ++ " (暴" ++ precip_type ++ ")"
  else formatFixed intensity 3

/-- The possible outcomes of applying Python `float()` to the raw
probability argument of `utils.safe_precipitation_probability`: the argument
is `None`; or `float()` succeeds with a numeric value (numbers and numeric
strings); or `float()` raises `ValueError`/`TypeError` (non-numeric strings
such as "abc", and non-numeric objects), which the source catches. -/
inductive ProbRaw where
  | null : ProbRaw
  | value (q : ℚ) : ProbRaw
  | unparseable : ProbRaw

/-- `utils.safe_precipitation_probability`. -/
def safe_precipitation_probability : ProbRaw → ℤ
  | .null => 0
  | .unparseable => 0
  | .value q =>
      if q ≤ 1 then truncToInt (q * 100)
      else if q ≤ 100 then truncToInt q
      else 100

/-- Claim C1 counterexample: at probability 0.875 ∈ [0,1] the code returns
`int(0.875 * 100) = 87` (truncation), not `round(87.5) = 88` as the claim
states. -/
theorem c1_trunc_not_round_counterexample :
    safe_precipitation_probability (.value (875/1000)) = 87 ∧
    round ((875/1000 : ℚ) * 100) = 88 := by
  constructor
  · norm_num [safe_precipitation_probability, truncToInt, Int.floor_eq_iff]
  · norm_num [round_eq, Int.floor_eq_iff]

/-- Claim C1 (amended): `safe_precipitation_probability` maps every x ∈ [0,1]
to `int(x*100)` = ⌊x*100⌋ (truncation, which for nonnegative values is the
floor, not rounding to nearest), every x ∈ (1,100] to ⌊x⌋, every x > 100 to
100, and `None` or an unparseable value to 0. -/
theorem c1_safe_probability_table (q : ℚ) :
    (0 ≤ q → q ≤ 1 → safe_precipitation_probability (.value q) = ⌊q * 100⌋) ∧
    (1 < q → q ≤ 100 → safe_precipitation_probability (.value q) = ⌊q⌋) ∧
    (100 < q → safe_precipitation_probability (.value q) = 100) ∧
    safe_precipitation_probability .null = 0 ∧
    safe_precipitation_probability .unparseable = 0 := by
  refine ⟨?_, ?_, ?_, rfl, rfl⟩
  · intro h0 h1
    have : 0 ≤ q * 100 := by positivity
    simp [safe_precipitation_probability, truncToInt, h1, this]
  · intro h1 h100
    have hnle : ¬ q ≤ 1 := not_le.mpr h1
    have h0 : 0 ≤ q := le_of_lt (lt_trans one_pos h1)
    simp [safe_precipitation_probability, truncToInt, hnle, h100, h0]
  · intro h100
    have h1 : ¬ q ≤ 1 := by linarith
    have h2 : ¬ q ≤ 100 := not_le.mpr h100
    simp [safe_precipitation_probability, h1, h2]

/-- Witness for C1's amended theorem at concrete inputs 0.5, 1.5 and 101. -/
theorem c1_safe_probability_table_witness :
    safe_precipitation_probability (.value (1/2)) = ⌊(1/2 : ℚ) * 100⌋ ∧
    safe_precipitation_probability (.value (3/2)) = ⌊(3/2 : ℚ)⌋ ∧
    safe_precipitation_probability (.value 101) = 100 :=
  ⟨(c1_safe_probability_table (1/2)).1 (by norm_num) (by norm_num),
   (c1_safe_probability_table (3/2)).2.1 (by norm_num) (by norm_num),
   (c1_safe_probability_table 101).2.2.1 (by norm_num)⟩

/-- Claim C2 failing input: for probability -0.5 the code computes
`int(-0.5 * 100) = -50`, an out-of-range result, contradicting the spec's
"never return out-of-range" / result-in-[0,100] guarantee. -/
theorem c2_negative_out_of_range :
    safe_precipitation_probability (.value (-(1/2))) = -50 ∧
    safe_precipitation_probability (.value (-(1/2))) < 0 := by
  have h : safe_precipitation_probability (.value (-(1/2))) = -50 := by
    norm_num [safe_precipitation_probability, truncToInt, Int.ceil_eq_iff]
  exact ⟨h, by rw [h]; norm_num⟩

/-- Rounding of 0.03 scaled by 10^3 for the radar fixed-point format. -/
theorem roundHalfEven_30 : roundHalfEven ((3/100 : ℚ) * 10 ^ 3) = 30 := by
  norm_num [roundHalfEven, Int.floor_eq_iff]

/-- Rounding of 0.30 scaled by 10^3 for the radar fixed-point format. -/
theorem roundHalfEven_300 : roundHalfEven ((30/100 : ℚ) * 10 ^ 3) = 300 := by
  norm_num [roundHalfEven, Int.floor_eq_iff]

/-- `f"{0.03:.3f}" = "0.030"`. -/
theorem formatFixed_003 : formatFixed (3/100) 3 = "0.030" := by
  simp only [formatFixed, roundHalfEven_30]
  decide

/-- `f"{0.30:.3f}" = "0.300"`. -/
theorem formatFixed_030 : formatFixed (30/100) 3 = "0.300" := by
  simp only [formatFixed, roundHalfEven_300]
  decide

/-- Claim C8: for dataType "radar", intensity 0.03 falls in the 无 band and
0.30 in the 中 band, and the precipitation word is 雨 for temperature 5,
雪 for temperature -5, and the generic 雨/雪 when the temperature is
unknown. -/
theorem c8_radar_bands :
    format_precipitation_intensity (3/100) "radar" (some 5) = "0.030 (无雨)" ∧
    format_precipitation_intensity (3/100) "radar" (some (-5)) = "0.030 (无雪)" ∧
    format_precipitation_intensity (3/100) "radar" none = "0.030 (无雨/雪)" ∧
    format_precipitation_intensity (30/100) "radar" (some 5) = "0.300 (中雨)" ∧
    format_precipitation_intensity (30/100) "radar" (some (-5)) = "0.300 (中雪)" ∧
    format_precipitation_intensity (30/100) "radar" none = "0.300 (中雨/雪)" := by
  have h1 : ((3:ℚ)/100) < 31/1000 := by norm_num
  have h2 : ¬ ((30:ℚ)/100) < 31/1000 := by norm_num
  have h3 : ¬ ((30:ℚ)/100) < 25/100 := by norm_num
  have h4 : ((30:ℚ)/100) < 35/100 := by norm_num
  refine ⟨?_, ?_, ?_, ?_, ?_, ?_⟩ <;>
    simp [format_precipitation_intensity, get_precipitation_type,
      h1, h2, h3, h4, formatFixed_003, formatFixed_030] <;>
    decide

/-- The `request_stats` record of `config.WeatherConfig`. -/
structure RequestStats where
  total_requests : ℕ
  successful_requests : ℕ
  failed_requests : ℕ
  cache_hits : ℕ
  cache_misses : ℕ
  average_response_time : ℚ
deriving DecidableEq

/-- The statistics as initialized in `WeatherConfig.__init__`. -/
def initStats : RequestStats :=
  { total_requests := 0, successful_requests := 0, failed_requests := 0,
    cache_hits := 0, cache_misses := 0, average_response_time := 0 }

/-- `WeatherConfig.record_request`: update the statistics with one completed
request; `mon` is the `enable_monitoring` flag (the source returns
immediately when it is off). -/
def record_request (mon : Bool) (st : RequestStats) (success : Bool)
    (response_time : ℚ) : RequestStats :=
  if !mon then st
  else
    let st1 := { st with total_requests := st.total_requests + 1 }
    let st2 := if success
      then { st1 with successful_requests := st1.successful_requests + 1 }
      else { st1 with failed_requests := st1.failed_requests + 1 }
    let n := st2.successful_requests + st2.failed_requests
    if 0 < n then
      { st2 with average_response_time :=
          (st2.average_response_time * ((n : ℚ) - 1) + response_time) / (n : ℚ) }
    else st2

/-- The statistics after a sequence of `record_request` calls (with
monitoring enabled) starting from the initial statistics; each list entry is
the `(success, response_time)` pair of one completed request. -/
def foldStats (l : List (Bool × ℚ)) : RequestStats :=
  l.foldl (fun st p => record_request true st p.1 p.2) initStats

/-- Strengthened running invariant of `foldStats`, proved by induction on the
call sequence from the back. -/
theorem foldStats_fields (l : List (Bool × ℚ)) :
    (foldStats l).total_requests = l.length ∧
    (foldStats l).successful_requests + (foldStats l).failed_requests = l.length ∧
    (foldStats l).average_response_time * (l.length : ℚ) = (l.map Prod.snd).sum := by
  induction l using List.reverseRecOn with
  | nil => simp [foldStats, initStats]
  | append_singleton l p ih =>
    obtain ⟨ih1, ih2, ih3⟩ := ih
    have hfold : foldStats (l ++ [p]) = record_request true (foldStats l) p.1 p.2 := by
      simp [foldStats, List.foldl_append]
    set st := foldStats l with hst
    cases hp : p.1 with
    | true =>
      simp only [hfold, record_request, hp, Bool.not_true, Bool.false_eq_true, if_false,
        if_true, ite_true, ite_false] at *
      constructor
      · simp [ih1]
      constructor
      · simp; omega
      · simp only [List.map_append, List.sum_append, List.length_append, List.map_cons,
          List.map_nil, List.sum_cons, List.sum_nil, List.length_cons, List.length_nil]
        have hn : st.successful_requests + 1 + st.failed_requests = l.length + 1 := by omega
        simp only [hn]
        push_cast
        have hl : ((l.length : ℚ) + 1) ≠ 0 := by positivity
        field_simp
        ring_nf
        ring_nf at ih3
        linarith [ih3]
    | false =>
      simp only [hfold, record_request, hp, Bool.not_true, Bool.false_eq_true, if_false,
        if_true, ite_true, ite_false] at *
      constructor
      · simp [ih1]
      constructor
      · simp; omega
      · simp only [List.map_append, List.sum_append, List.length_append, List.map_cons,
          List.map_nil, List.sum_cons, List.sum_nil, List.length_cons, List.length_nil]
        have hn : st.successful_requests + (st.failed_requests + 1) = l.length + 1 := by omega
        simp only [hn]
        push_cast
        have hl : ((l.length : ℚ) + 1) ≠ 0 := by positivity
        field_simp
        ring_nf
        ring_nf at ih3
        linarith [ih3]

/-- Claim C5: after any sequence of `record_request` calls with monitoring
enabled, `total_requests = successful_requests + failed_requests`, the total
equals the number of calls, and the running average (maintained by
`new_avg = (old_avg*(n-1) + latest)/n`) equals the arithmetic mean of all
recorded response times, reported as 0 while no request has completed.  Every
prefix of a call sequence is itself a call sequence, so this holds after each
call. -/
theorem c5_stats_invariant (l : List (Bool × ℚ)) :
    (foldStats l).total_requests =
      (foldStats l).successful_requests + (foldStats l).failed_requests ∧
    (foldStats l).total_requests = l.length ∧
    (foldStats l).average_response_time =
      (if l.length = 0 then 0 else (l.map Prod.snd).sum / (l.length : ℚ)) := by
  obtain ⟨h1, h2, h3⟩ := foldStats_fields l
  refine ⟨by omega, h1, ?_⟩
  rcases Nat.eq_zero_or_pos l.length with hz | hpos
  · rw [hz]
    have hnil : l = [] := List.length_eq_zero.mp hz
    simp [hnil, foldStats, initStats]
  · have hne : l.length ≠ 0 := Nat.pos_iff_ne_zero.mp hpos
    have hq : (l.length : ℚ) ≠ 0 := by exact_mod_cast hne
    rw [if_neg hne, eq_div_iff hq]
    exact h3

/-- Outcome of one HTTP attempt inside `server.make_request`, with the
elapsed wall-clock time of that attempt: the request succeeds and the body
decodes (`success`); `httpx.TimeoutException` is raised (`timeout`);
`response.raise_for_status()` raises `httpx.HTTPStatusError` with a status
code (`httpStatus`); or any other exception occurs — transport error or
JSON-decode failure (`failure`, with the exception message). -/
inductive AttemptOutcome (α : Type) where
  | success (body : α) (elapsed : ℚ)
  | timeout (elapsed : ℚ)
  | httpStatus (status : ℕ) (elapsed : ℚ)
  | failure (msg : String) (elapsed : ℚ)

/-- The classified errors raised by `server.make_request`. -/
inductive RequestError where
  | timeoutErr
  | authErr
  | rateLimitErr
  | providerErr (status : ℕ)
  | failedErr (msg : String)
  | exhaustedErr
deriving DecidableEq

/-- The `str(e)` of each `Exception` raised by `server.make_request`. -/
def RequestError.message : RequestError → String
  | .timeoutErr => "Request timeout - please try again"
  | .authErr => "Invalid API token - please check your CAIYUN_WEATHER_API_TOKEN"
  | .rateLimitErr => "API rate limit exceeded - please try again later"
  | .providerErr status => s!"API request failed with status {status}"
  | .failedErr msg => s!"Weather data request failed: {msg}"
  | .exhaustedErr => "All retry attempts failed"

/-- The retry loop of `server.make_request`, driven by what each attempt does
(`attempts i` is the outcome of attempt number `i`; the `time.sleep` waits
between attempts have no observable effect here).  Returns the overall result
(`Except.error` models a raised exception), the statistics after the run, and
the number of attempts performed.  `remaining` counts the loop iterations
left — the entry point starts it at `max_retries`, matching
`for attempt in range(config.max_retries)` — and `i` is the Python loop
variable `attempt`, so `i + 1 = maxRetries` is the source's
`attempt == config.max_retries - 1` last-attempt test. -/
def makeRequestLoop {α : Type} (mon : Bool) (maxRetries : ℕ)
    (attempts : ℕ → AttemptOutcome α) :
    ℕ → ℕ → RequestStats → Except RequestError α × RequestStats × ℕ
  | 0, _, st => (.error .exhaustedErr, st, 0)
  | remaining + 1, i, st =>
    match attempts i with
    | .success body t => (.ok body, record_request mon st true t, 1)
    | .timeout t =>
        let st' := record_request mon st false t
        if i + 1 = maxRetries then (.error .timeoutErr, st', 1)
        else
          let r := makeRequestLoop mon maxRetries attempts remaining (i + 1) st'
          (r.1, r.2.1, r.2.2 + 1)
    | .httpStatus status t =>
        let st' := record_request mon st false t
        if status = 401 then (.error .authErr, st', 1)
        else if status = 429 then
          if i + 1 = maxRetries then (.error .rateLimitErr, st', 1)
          else
            let r := makeRequestLoop mon maxRetries attempts remaining (i + 1) st'
            (r.1, r.2.1, r.2.2 + 1)
        else
          if i + 1 = maxRetries then (.error (.providerErr status), st', 1)
          else
            let r := makeRequestLoop mon maxRetries attempts remaining (i + 1) st'
            (r.1, r.2.1, r.2.2 + 1)
    | .failure msg t =>
        let st' := record_request mon st false t
        if i + 1 = maxRetries then (.error (.failedErr msg), st', 1)
        else
          let r := makeRequestLoop mon maxRetries attempts remaining (i + 1) st'
          (r.1, r.2.1, r.2.2 + 1)

/-- `server.make_request` (the final `raise Exception("All retry attempts
failed")` is only reachable when `max_retries` is 0). -/
def make_request {α : Type} (mon : Bool) (maxRetries : ℕ)
    (attempts : ℕ → AttemptOutcome α) (st : RequestStats) :
    Except RequestError α × RequestStats × ℕ :=
  makeRequestLoop mon maxRetries attempts maxRetries 0 st

/-- `record_request` with monitoring on always increments the total count. -/
theorem record_request_total (st : RequestStats) (success : Bool) (t : ℚ) :
    (record_request true st success t).total_requests = st.total_requests + 1 := by
  cases success <;> simp [record_request]

/-- `record_request` with monitoring on increments the failure count on a
failed request. -/
theorem record_request_failed (st : RequestStats) (t : ℚ) :
    (record_request true st false t).failed_requests = st.failed_requests + 1 := by
  simp [record_request]

/-- `record_request` leaves the success count unchanged on a failed
request. -/
theorem record_request_success_const (st : RequestStats) (t : ℚ) :
    (record_request true st false t).successful_requests = st.successful_requests := by
  simp [record_request]

/-- Claim C3: with `max_retries = 3` and every attempt timing out,
`make_request` performs exactly 3 attempts, records all 3 as failed requests
(total and failed counts grow by 3, the success count is unchanged), and
fails with the timeout error; no fourth attempt is made. -/
theorem c3_three_timeouts (times : ℕ → ℚ) (st : RequestStats) :
    (make_request true 3 (fun i => AttemptOutcome.timeout (α := Unit) (times i)) st).1 =
      .error .timeoutErr ∧
    (make_request true 3 (fun i => AttemptOutcome.timeout (α := Unit) (times i)) st).2.2 = 3 ∧
    (make_request true 3 (fun i => AttemptOutcome.timeout (α := Unit) (times i)) st).2.1.total_requests =
      st.total_requests + 3 ∧
    (make_request true 3 (fun i => AttemptOutcome.timeout (α := Unit) (times i)) st).2.1.failed_requests =
      st.failed_requests + 3 ∧
    (make_request true 3 (fun i => AttemptOutcome.timeout (α := Unit) (times i)) st).2.1.successful_requests =
      st.successful_requests := by
  simp [make_request, makeRequestLoop, record_request_total, record_request_failed,
    record_request_success_const]

/-- Claim C4: an attempt that returns HTTP 401 makes `make_request` fail
immediately with the authentication error after exactly one attempt, no
matter how many retries remain. -/
theorem c4_auth_no_retry {α : Type} (maxRetries : ℕ)
    (attempts : ℕ → AttemptOutcome α) (st : RequestStats) (t : ℚ)
    (hmr : 1 ≤ maxRetries) (h0 : attempts 0 = .httpStatus 401 t) :
    (make_request true maxRetries attempts st).1 = .error .authErr ∧
    (make_request true maxRetries attempts st).2.2 = 1 := by
  obtain ⟨r, rfl⟩ : ∃ r, maxRetries = r + 1 := ⟨maxRetries - 1, by omega⟩
  simp [make_request, makeRequestLoop, h0]

/-- Witness for C4 at `max_retries = 3` and a constant-401 attempt
sequence. -/
theorem c4_auth_no_retry_witness :
    (make_request true 3 (fun _ => AttemptOutcome.httpStatus (α := Unit) 401 1) initStats).1 =
      .error .authErr ∧
    (make_request true 3 (fun _ => AttemptOutcome.httpStatus (α := Unit) 401 1) initStats).2.2 = 1 :=
  c4_auth_no_retry 3 (fun _ => AttemptOutcome.httpStatus 401 1) initStats 1
    (by norm_num) rfl

/-- What a report-builder tool call does at its interface: return a text
result, or raise an exception carrying a message. -/
inductive BuilderOutcome where
  | returned (text : String)
  | raised (msg : String)
deriving DecidableEq

/-- Whether the builder returned normally (did not raise). -/
def BuilderOutcome.isReturned : BuilderOutcome → Bool
  | .returned _ => true
  | .raised _ => false

/-- The `ValueError` message of `WeatherConfig.validate_token`, raised when
`config.api_token` is absent. -/
def tokenMissingMsg : String :=
  "API token not configured. Please set CAIYUN_WEATHER_API_TOKEN environment variable."

/-- The station provider's decoded response as probed by
`get_air_quality_station_forecast`: `data` is `none` when the `"data"` key is
absent or its value is falsy (`None`), and `some []` when the station list is
empty; the per-station payload is kept abstract (`σ`) because the claims only
concern the no-data path. -/
structure StationResponse (σ : Type) where
  data : Option (List σ)

/-- The text returned when no station is found (source line 1349), with the
rendered coordinates interpolated; `lngS`/`latS` stand for Python's rendering
of the float arguments. -/
def noStationMsg (lngS latS : String) : String :=
  "❌ 未找到位置 (" ++ lngS ++ ", " ++ latS ++ ") 附近的空气质量监测站数据"

/-- The wrapping applied by the builder's `except` clause (source line
1485). -/
def stationWrap (m : String) : String :=
  "Failed to get station air quality forecast: " ++ m

/-- `server.get_air_quality_station_forecast`.  `token` is
`config.api_token` (`validate_api_token` raises when it is `none`); `req` is
the outcome of `await make_request(...)`; `render` stands for the
untranslated report-formatting block over the non-empty station list (source
lines 1351-1481), which may itself return text or raise — the claims settled
here only exercise the paths before it.  The surrounding
`try/except Exception` re-raises every exception wrapped in the operation
name. -/
def get_air_quality_station_forecast {σ : Type} (lngS latS : String)
    (token : Option String) (req : Except RequestError (StationResponse σ))
    (render : σ → List σ → BuilderOutcome) : BuilderOutcome :=
  match token with
  | none => .raised (stationWrap tokenMissingMsg)
  | some _ =>
    match req with
    | .error e => .raised (stationWrap e.message)
    | .ok resp =>
      match resp.data with
      | none => .returned (noStationMsg lngS latS)
      | some [] => .returned (noStationMsg lngS latS)
      | some (s0 :: rest) =>
        match render s0 rest with
        | .returned text => .returned text
        | .raised m => .raised (stationWrap m)

/-- Claim C6 counterexample: on a response with an empty station list the
builder returns the "not found" text as a normal result — it does not raise,
contrary to the claim. -/
theorem c6_no_station_returns_counterexample :
    get_air_quality_station_forecast (σ := Unit) "116.4" "39.9" (some "tok")
        (.ok ⟨some []⟩) (fun _ _ => .returned "") =
      .returned (noStationMsg "116.4" "39.9") ∧
    (get_air_quality_station_forecast (σ := Unit) "116.4" "39.9" (some "tok")
        (.ok ⟨some []⟩) (fun _ _ => .returned "")).isReturned = true := by
  exact ⟨rfl, rfl⟩

/-- Claim C6 (amended): when the station response carries no station data
(the `"data"` key absent/falsy, or the list empty), the builder returns the
fixed "未找到…监测站数据" message as a normal text result rather than raising. -/
theorem c6_no_station_returns_text {σ : Type} (lngS latS tok : String)
    (resp : StationResponse σ) (render : σ → List σ → BuilderOutcome)
    (h : resp.data = none ∨ resp.data = some []) :
    get_air_quality_station_forecast lngS latS (some tok) (.ok resp) render =
      .returned (noStationMsg lngS latS) := by
  obtain ⟨d⟩ := resp
  obtain h | h := h <;> simp only at h <;> subst h <;> rfl

/-- Witness for C6's amended theorem with the `"data"` key absent. -/
theorem c6_no_station_returns_text_witness :
    get_air_quality_station_forecast (σ := Unit) "121.5" "31.2" (some "tok")
        (.ok ⟨none⟩) (fun _ _ => .returned "") =
      .returned (noStationMsg "121.5" "31.2") :=
  c6_no_station_returns_text "121.5" "31.2" "tok" ⟨none⟩ (fun _ _ => .returned "")
    (Or.inl rfl)

/-- The `minutely` block of the provider response, with the fields the
minutely builder reads; `Option` marks keys that may be absent (for the two
lists, also present-but-`None`). -/
structure MinutelyBlock where
  status : Option String
  description : Option String
  datasource : Option String
  precipitation : Option (List ℚ)
  probability : Option (List ℚ)

/-- The `result` object of the decoded minutely document. -/
structure MinutelyResultBlock where
  minutely : Option MinutelyBlock
  forecast_keypoint : Option String

/-- The decoded document returned by the minutely endpoint; `result` is
`none` when the top-level `"result"` key is absent. -/
structure MinutelyDoc where
  result : Option MinutelyResultBlock

/-- Python `f"{i:2d}"`: decimal rendering right-aligned to width 2 with
spaces. -/
def padLeft2 (n : ℕ) : String :=
  let s := toString n
  if s.length < 2 then " " ++ s else s

/-- The 5-minute intensity lines of the minutely report (source loop
`for i in range(0, min(60, len(precipitation_data)), 5)`; the source indexes
`precipitation_data[i] if i < len(precipitation_data) else 0`). -/
def minutelyIntensityLines (pts : List ℚ) : String :=
  ((List.range (min 60 pts.length)).filter (fun i => i % 5 = 0)).foldl
    (fun acc i =>
      acc ++ "T+" ++ padLeft2 i ++ "分钟: " ++
        format_precipitation_intensity (pts.getD i 0) "minutely" ++ "\n")
    ""

/-- The 30-minute probability lines of the minutely report (source loop
`for i, prob in enumerate(minutely["probability"])`, printing
`int(prob * 100)`). -/
def minutelyProbabilityLines (probs : List ℚ) : String :=
  probs.enum.foldl
    (fun acc p =>
      acc ++ "未来" ++ toString ((p.1 + 1) * 30) ++ "分钟: " ++
        toString (truncToInt (p.2 * 100)) ++ "%\n")
    ""

/-- The report text of `get_minutely_precipitation` when minutely data is
available (source lines 634-663). -/
def minutelyOkReport (rb : MinutelyResultBlock) (mb : MinutelyBlock) : String :=
  let description := mb.description.getD "暂无描述"
  let datasource := mb.datasource.getD "未知数据源"
  let forecast_keypoint := (rb.forecast_keypoint.getD "")
  let f0 := "🌧️  未来2小时分钟级降水预报:\n" ++ "📝 预报描述: " ++ description ++ "\n"
  let f1 := if forecast_keypoint ≠ "" then f0 ++ "🎯 关键信息: " ++ forecast_keypoint ++ "\n"
            else f0
  let f2 := f1 ++ "📊 数据源: " ++ datasource ++ "\n\n"
  let f3 := match mb.precipitation with
    | some pts =>
        if pts ≠ [] then f2 ++ "⏰ 未来1小时每5分钟降水强度:\n" ++ minutelyIntensityLines pts
        else f2
    | none => f2
  match mb.probability with
  | some probs =>
      if probs ≠ [] then f3 ++ "\n📊 未来2小时降水概率 (每30分钟):\n" ++ minutelyProbabilityLines probs
      else f3
  | none => f3

/-- The fixed "not available" text of the minutely builder (source line
632), with the rendered coordinates interpolated. -/
def minutelyUnavailableMsg (lngS latS : String) : String :=
  "⚠️  分钟级降水数据不可用 (位置: " ++ lngS ++ ", " ++ latS ++
    ")\n此功能主要适用于中国主要城市。"

/-- The error text the minutely builder's `except` clause returns (source
line 667). -/
def minutelyFailMsg (m : String) : String :=
  "⚠️  分钟级降水数据获取失败。此功能主要适用于中国主要城市。\n错误信息: " ++ m

/-- `server.get_minutely_precipitation`.  `token` is `config.api_token`;
`req` is the outcome of `await make_request(...)`.  Every exception inside
the body — the missing-token `ValueError`, every request-engine error, and
the dictionary `KeyError`s (whose Python `str` is the quoted key) — is caught
by the surrounding `try/except Exception` and converted into an error-text
return. -/
def get_minutely_precipitation (lngS latS : String) (token : Option String)
    (req : Except RequestError MinutelyDoc) : BuilderOutcome :=
  match token with
  | none => .returned (minutelyFailMsg tokenMissingMsg)
  | some _ =>
    match req with
    | .error e => .returned (minutelyFailMsg e.message)
    | .ok doc =>
      match doc.result with
      | none => .returned (minutelyFailMsg "'result'")
      | some rb =>
        match rb.minutely with
        | none => .returned (minutelyUnavailableMsg lngS latS)
        | some mb =>
          match mb.status with
          | none => .returned (minutelyFailMsg "'status'")
          | some st =>
            if st ≠ "ok" then .returned (minutelyUnavailableMsg lngS latS)
            else .returned (minutelyOkReport rb mb)

/-- Claim C9: when the response's `result` lacks the `minutely` key, or the
minutely status field is present but not "ok", the builder returns the fixed
"not available for this location" message as a normal text result. -/
theorem c9_minutely_unavailable (lngS latS tok : String) (doc : MinutelyDoc)
    (rb : MinutelyResultBlock) (hdoc : doc.result = some rb) :
    (rb.minutely = none →
      get_minutely_precipitation lngS latS (some tok) (.ok doc) =
        .returned (minutelyUnavailableMsg lngS latS)) ∧
    (∀ mb st, rb.minutely = some mb → mb.status = some st → st ≠ "ok" →
      get_minutely_precipitation lngS latS (some tok) (.ok doc) =
        .returned (minutelyUnavailableMsg lngS latS)) := by
  constructor
  · intro h
    simp [get_minutely_precipitation, hdoc, h]
  · intro mb st hmb hst hne
    simp [get_minutely_precipitation, hdoc, hmb, hst, hne]

/-- Witness for C9 in both cases: the `minutely` key absent, and a status of
"unavailable". -/
theorem c9_minutely_unavailable_witness :
    get_minutely_precipitation "116.4" "39.9" (some "tok")
        (.ok ⟨some ⟨none, none⟩⟩) =
      .returned (minutelyUnavailableMsg "116.4" "39.9") ∧
    get_minutely_precipitation "116.4" "39.9" (some "tok")
        (.ok ⟨some ⟨some ⟨some "unavailable", none, none, none, none⟩, none⟩⟩) =
      .returned (minutelyUnavailableMsg "116.4" "39.9") :=
  ⟨(c9_minutely_unavailable "116.4" "39.9" "tok" ⟨some ⟨none, none⟩⟩
      ⟨none, none⟩ rfl).1 rfl,
   (c9_minutely_unavailable "116.4" "39.9" "tok"
      ⟨some ⟨some ⟨some "unavailable", none, none, none, none⟩, none⟩⟩
      ⟨some ⟨some "unavailable", none, none, none, none⟩, none⟩ rfl).2
      ⟨some "unavailable", none, none, none, none⟩ "unavailable" rfl rfl
      (by decide)⟩

/-- Claim C10: `get_minutely_precipitation` never raises — for every token
state and every request outcome it returns a text result — whereas a builder
such as `get_air_quality_station_forecast` re-raises a wrapped failure when
the request engine fails. -/
theorem c10_minutely_never_raises (lngS latS : String) (token : Option String)
    (req : Except RequestError MinutelyDoc) {σ : Type} (rlngS rlatS tok2 : String)
    (e : RequestError) (render : σ → List σ → BuilderOutcome) :
    (get_minutely_precipitation lngS latS token req).isReturned = true ∧
    (get_air_quality_station_forecast rlngS rlatS (some tok2) (.error e)
        render).isReturned = false := by
  constructor
  · match token with
    | none => rfl
    | some _ =>
      match req with
      | .error e' => rfl
      | .ok doc =>
        match doc with
        | ⟨none⟩ => rfl
        | ⟨some rb⟩ =>
          match rb with
          | ⟨none, _⟩ => rfl
          | ⟨some mb, fk⟩ =>
            match mb with
            | ⟨none, _, _, _, _⟩ => rfl
            | ⟨some st, _, _, _, _⟩ =>
              by_cases hst : st = "ok" <;>
                simp [get_minutely_precipitation, BuilderOutcome.isReturned, hst]
  · rfl

/-- Python `utc_datetime_str.replace('Z', '+00:00')` over the character
list: every occurrence of `Z` is replaced. -/
def pyReplaceZ : List Char → List Char
  | [] => []
  | c :: rest =>
      if c = 'Z' then '+' :: '0' :: '0' :: ':' :: '0' :: '0' :: pyReplaceZ rest
      else c :: pyReplaceZ rest

/-- The timezone-normalization prelude of `utils.convert_utc_to_china_time`
(source lines 465-470): a string ending in `Z` has every `Z` replaced by
`+00:00`; otherwise, if no `+` occurs anywhere, `+00:00` is appended. -/
def normalizeTzChars (l : List Char) : List Char :=
  if l.getLast? = some 'Z' then pyReplaceZ l
  else if '+' ∈ l then l
  else l ++ ['+', '0', '0', ':', '0', '0']

/-- String-level wrapper of `normalizeTzChars`. -/
def normalizeTz (s : String) : String :=
  String.mk (normalizeTzChars s.data)

/-- Days-to-civil-date conversion for the proleptic Gregorian calendar (the
standard `civil_from_days` algorithm); models the date arithmetic of the
`datetime` library. -/
def civilFromDays (z : ℤ) : ℤ × ℤ × ℤ :=
  let z' := z + 719468
  let era := Int.fdiv z' 146097
  let doe := z' - era * 146097
  let yoe := (doe - doe / 1460 + doe / 36524 - doe / 146096) / 365
  let y := yoe + era * 400
  let doy := doe - (365 * yoe + yoe / 4 - yoe / 100)
  let mp := (5 * doy + 2) / 153
  let d := doy - (153 * mp + 2) / 5 + 1
  let m := mp + (if mp < 10 then 3 else -9)
  (y + (if m ≤ 2 then 1 else 0), m, d)

/-- `dt_china.strftime('%Y-%m-%d %H:%M')` for the UTC+8 moment of epoch
second `t` (the source converts with
`astimezone(timezone(timedelta(hours=8)))` before formatting). -/
def chinaYmdHm (t : ℤ) : String :=
  let t8 := t + 8 * 3600
  let days := Int.fdiv t8 86400
  let sod := (t8 - days * 86400).toNat
  let ymd := civilFromDays days
  let y := ymd.1
  let yS := if y < 0 then "-" ++ padNat 4 y.natAbs else padNat 4 y.toNat
  yS ++ "-" ++ padNat 2 ymd.2.1.toNat ++ "-" ++ padNat 2 ymd.2.2.toNat ++ " " ++
    padNat 2 (sod / 3600) ++ ":" ++ padNat 2 (sod % 3600 / 60)

/-- The full `strftime('%Y-%m-%d %H:%M+08:00')` output. -/
def chinaStamp (t : ℤ) : String :=
  chinaYmdHm t ++ "+08:00"

/-- `utils.convert_utc_to_china_time`.  `parseIso` models the external
`datetime.fromisoformat` composed with conversion to UTC epoch seconds:
`some t` when parsing the (already normalized) string succeeds, `none` when
it raises `ValueError`/`TypeError`, which the source catches and answers
with the normalized string. -/
def convert_utc_to_china_time (parseIso : String → Option ℤ) (s : String) : String :=
  let s2 := normalizeTz s
  match parseIso s2 with
  | some t => chinaStamp t
  | none => s2

/-- The argument Python hands to `utils.utc_timestamp_to_china_time`: an
epoch-second integer or — when the function is re-applied to its own
fallback output — a string. -/
inductive TsRaw where
  | int (z : ℤ)
  | str (s : String)

/-- `utils.utc_timestamp_to_china_time`.  `fromtsOk` models whether the
external `datetime.fromtimestamp` accepts the integer (it raises an error
caught by the source for out-of-range timestamps); on a string argument
`fromtimestamp` raises `TypeError`, also caught, and the fallback
`str(timestamp)` is the string itself. -/
def utc_timestamp_to_china_time (fromtsOk : ℤ → Bool) : TsRaw → String
  | .int z => if fromtsOk z then chinaStamp z else toString z
  | .str s => s

/-- Any list whose last element is `Z` contains `Z`. -/
theorem mem_of_getLast?_eq (l : List Char) (c : Char) (h : l.getLast? = some c) :
    c ∈ l := by
  induction l with
  | nil => simp at h
  | cons a rest ih =>
    cases rest with
    | nil => simp_all
    | cons b rest' =>
      rw [List.getLast?_cons_cons] at h
      exact List.mem_cons_of_mem a (ih h)

/-- `pyReplaceZ` removes every `Z`. -/
theorem z_not_mem_pyReplaceZ (l : List Char) : 'Z' ∉ pyReplaceZ l := by
  induction l with
  | nil => simp [pyReplaceZ]
  | cons a rest ih =>
    by_cases ha : a = 'Z' <;> simp [pyReplaceZ, ha, ih]
    intro hc
    exact ha hc.symm

/-- Replacing a present `Z` introduces a `+`. -/
theorem plus_mem_pyReplaceZ (l : List Char) (h : 'Z' ∈ l) : '+' ∈ pyReplaceZ l := by
  induction l with
  | nil => simp at h
  | cons a rest ih =>
    by_cases ha : a = 'Z'
    · simp [pyReplaceZ, ha]
    · have h' : 'Z' ∈ rest := by
        rcases List.mem_cons.mp h with h0 | h0
        · exact absurd h0.symm ha
        · exact h0
      simp [pyReplaceZ, ha, ih h']

/-- The normalization prelude is idempotent: its output never ends in `Z`
and always contains a `+`, so a second pass leaves it unchanged. -/
theorem normalizeTzChars_idem (l : List Char) :
    normalizeTzChars (normalizeTzChars l) = normalizeTzChars l := by
  by_cases h1 : l.getLast? = some 'Z'
  · have hz : 'Z' ∈ l := mem_of_getLast?_eq l 'Z' h1
    have hplus : '+' ∈ pyReplaceZ l := plus_mem_pyReplaceZ l hz
    have h1' : ¬ (pyReplaceZ l).getLast? = some 'Z' := fun hc =>
      z_not_mem_pyReplaceZ l (mem_of_getLast?_eq _ 'Z' hc)
    simp [normalizeTzChars, h1, h1', hplus]
  · by_cases h2 : '+' ∈ l
    · simp [normalizeTzChars, h1, h2]
    · have hconcat : (l ++ ['+', '0', '0', ':', '0', '0']).getLast? = some '0' := by
        have hsplit : l ++ ['+', '0', '0', ':', '0', '0'] =
            (l ++ ['+', '0', '0', ':', '0']) ++ ['0'] := by simp
        rw [hsplit, List.getLast?_concat]
      have hplus : '+' ∈ l ++ ['+', '0', '0', ':', '0', '0'] := by simp
      simp [normalizeTzChars, h1, h2, hconcat, hplus]

/-- String-level idempotence of the normalization prelude. -/
theorem normalizeTz_idem (s : String) : normalizeTz (normalizeTz s) = normalizeTz s := by
  show String.mk (normalizeTzChars (String.mk (normalizeTzChars s.data)).data) =
    String.mk (normalizeTzChars s.data)
  rw [show (String.mk (normalizeTzChars s.data)).data = normalizeTzChars s.data from rfl,
    normalizeTzChars_idem]

/-- Claim C7 counterexample: on the malformed input "abc" the converter does
not return the input unchanged — the normalization prelude has appended
"+00:00" before the parse fails, and the modified string is returned. -/
theorem c7_malformed_changed_counterexample :
    convert_utc_to_china_time (fun _ => none) "abc" = "abc+00:00" ∧
    convert_utc_to_china_time (fun _ => none) "abc" ≠ "abc" := by
  constructor <;> decide

/-- Claim C7 (amended): on a well-formed input either converter yields a
string ending in "+08:00"; on a malformed input `convert_utc_to_china_time`
returns the input after timezone normalization (a trailing `Z` replaced by
`+00:00`, or `+00:00` appended when no `+`/`Z` marker is present) — which can
differ from the input — while `utc_timestamp_to_china_time` returns
`str(timestamp)` unchanged; and re-applying either function to such a
malformed result returns it again unchanged. -/
theorem c7_china_time_fallback :
    (∀ (parseIso : String → Option ℤ) (s : String),
      (∀ t, parseIso (normalizeTz s) = some t →
        ∃ p, convert_utc_to_china_time parseIso s = p ++ "+08:00") ∧
      (parseIso (normalizeTz s) = none →
        convert_utc_to_china_time parseIso s = normalizeTz s ∧
        convert_utc_to_china_time parseIso (convert_utc_to_china_time parseIso s) =
          convert_utc_to_china_time parseIso s)) ∧
    (∀ (fromtsOk : ℤ → Bool) (z : ℤ),
      (fromtsOk z = true →
        ∃ p, utc_timestamp_to_china_time fromtsOk (.int z) = p ++ "+08:00") ∧
      (fromtsOk z = false →
        utc_timestamp_to_china_time fromtsOk (.int z) = toString z ∧
        utc_timestamp_to_china_time fromtsOk
            (.str (utc_timestamp_to_china_time fromtsOk (.int z))) =
          utc_timestamp_to_china_time fromtsOk (.int z))) := by
  constructor
  · intro parseIso s
    constructor
    · intro t ht
      refine ⟨chinaYmdHm t, ?_⟩
      simp [convert_utc_to_china_time, ht, chinaStamp]
    · intro hnone
      have h1 : convert_utc_to_china_time parseIso s = normalizeTz s := by
        simp [convert_utc_to_china_time, hnone]
      refine ⟨h1, ?_⟩
      rw [h1]
      have h2 : normalizeTz (normalizeTz s) = normalizeTz s := normalizeTz_idem s
      simp [convert_utc_to_china_time, h2, hnone]
  · intro fromtsOk z
    constructor
    · intro hok
      exact ⟨chinaYmdHm z, by simp [utc_timestamp_to_china_time, hok, chinaStamp]⟩
    · intro hbad
      exact ⟨by simp [utc_timestamp_to_china_time, hbad], by
        simp [utc_timestamp_to_china_time, hbad]⟩

/-- A concrete stand-in for `datetime.fromisoformat`, succeeding on exactly
one well-formed timestamp string (2021-01-01 00:00:00 UTC). -/
def parseIsoOne (u : String) : Option ℤ :=
  if u = "2021-01-01T00:00:00+00:00" then some 1609459200 else none

/-- Witness for C7's amended theorem at concrete inputs: a well-formed ISO
string, the malformed string "xyz", and an accepted and a rejected integer
timestamp. -/
theorem c7_china_time_fallback_witness :
    (∃ p, convert_utc_to_china_time parseIsoOne "2021-01-01T00:00:00+00:00" =
      p ++ "+08:00") ∧
    (convert_utc_to_china_time (fun _ => none) "xyz" = normalizeTz "xyz" ∧
      convert_utc_to_china_time (fun _ => none)
          (convert_utc_to_china_time (fun _ => none) "xyz") =
        convert_utc_to_china_time (fun _ => none) "xyz") ∧
    (∃ p, utc_timestamp_to_china_time (fun _ => true) (.int 1609459200) =
      p ++ "+08:00") ∧
    (utc_timestamp_to_china_time (fun _ => false) (.int 1609459200) =
        toString (1609459200 : ℤ) ∧
      utc_timestamp_to_china_time (fun _ => false)
          (.str (utc_timestamp_to_china_time (fun _ => false) (.int 1609459200))) =
        utc_timestamp_to_china_time (fun _ => false) (.int 1609459200)) :=
  ⟨(c7_china_time_fallback.1 parseIsoOne "2021-01-01T00:00:00+00:00").1
      1609459200 (by decide),
   (c7_china_time_fallback.1 (fun _ => none) "xyz").2 rfl,
   (c7_china_time_fallback.2 (fun _ => true) 1609459200).1 rfl,
   (c7_china_time_fallback.2 (fun _ => false) 1609459200).2 rfl⟩
